import Mathlib

/-!
Verification development for the Emuna repository.

The two logic units beneath the UI layer are shallowly embedded here:

* the daily-quote notification scheduler
  (source: src/unnamed/part_001, `notifications` module), and
* the Shabbat/holiday availability window calculator
  (source: src/unnamed/part_002, `shabbat` module).

Modelling conventions:

* Timestamps are `Int` milliseconds on a linear local clock (UTC-like,
  no DST); JS `Date` arithmetic (`setHours`, `setDate(+1)`, `getTime`)
  is embedded as plain integer arithmetic on that clock.
* JS `string.split(":")` with a one-character separator is embedded as
  `jsSplit`; the JS `Number(string)` coercion is embedded by `jsNumber`
  over the full StringNumericLiteral grammar: the trimmed empty string
  is 0, signed decimal literals (with optional fraction and exponent),
  unsigned hex/octal/binary radix literals and signed Infinity coerce
  to numbers, everything else is NaN.  Numeric literals are evaluated
  exactly (as rationals) rather than rounded to binary doubles;
  literals whose exact value and double value straddle an integer are
  outside the modelled fragment.
* The asynchronous environment of the scheduler (notification
  permission, the quote returned by `getRandomQuote`, the current
  clock) is an explicit `SchedEnv` record; the module-global mutable
  state together with AsyncStorage and the OS pending-notification
  queue is an explicit `SchedState` record.  OS notification ids are
  modelled as a fresh-id counter (`nextId`).
* Calendar feed items arrive with their `date` field already parsed to
  an epoch-millisecond timestamp (`none` models a missing or
  unparseable date; both are filtered identically by the source).  A
  feed-fetch failure is the empty item list, exactly the `{}` response
  `fetchCalendarWindow` returns on error.
-/

set_option linter.unusedVariables false

namespace Emuna

/-- Result of the JS `Number(string)` coercion: a finite value that is
an integer, a finite value that is not an integer (recorded by its
toward-zero truncation, which is all the scheduler's `setHours` call
can observe of it), one of the two infinities, or NaN. -/
inductive JsNum where
  | num : Int → JsNum
  | numNonInt : Int → JsNum
  | inf : JsNum
  | negInf : JsNum
  | nan : JsNum
deriving DecidableEq, Repr

/-- Split a character list at every occurrence of the separator,
mirroring JS `String.prototype.split` with a one-character separator
(the empty string yields one empty group, a separator at either end
yields an empty group there). -/
def splitChar (sep : Char) : List Char → List (List Char)
  | [] => [[]]
  | c :: rest =>
    let r := splitChar sep rest
    if c = sep then [] :: r
    else
      match r with
      | [] => [[c]]
      | g :: gs => (c :: g) :: gs

/-- JS `s.split(sep)` for a one-character separator. -/
def jsSplit (s : String) (sep : Char) : List String :=
  (splitChar sep s.toList).map (fun cs => String.mk cs)

/-- Whitespace characters trimmed by the JS `Number` coercion
(modelled subset). -/
def isJsSpace (c : Char) : Bool :=
  c = ' ' || c = '\t' || c = '\n' || c = '\r'

/-- Value of a list of decimal digits. -/
def decimalDigitsToNat (cs : List Char) : Nat :=
  cs.foldl (fun a c => a * 10 + (c.toNat - 48)) 0

/-- Magnitude of a finite numeric literal: an integer value, or a
non-integer value recorded by its truncated (floor, for a magnitude)
integer part. -/
inductive JsMagnitude where
  | intVal : Nat → JsMagnitude
  | nonIntVal : Nat → JsMagnitude
deriving DecidableEq, Repr

/-- Exponent part of a decimal literal: no exponent is 0, `e`/`E`
followed by an optionally signed nonempty digit string is that signed
value, anything else (including trailing junk) is invalid. -/
def parseExponentPart (cs : List Char) : Option Int :=
  match cs with
  | [] => some 0
  | e :: rest =>
    if e = 'e' ∨ e = 'E' then
      let signed : Bool × List Char :=
        match rest with
        | '+' :: r => (false, r)
        | '-' :: r => (true, r)
        | r => (false, r)
      let xd := signed.2.takeWhile Char.isDigit
      let rest2 := signed.2.dropWhile Char.isDigit
      if xd.isEmpty ∨ ¬ rest2.isEmpty then none
      else
        some (if signed.1 then -(decimalDigitsToNat xd : Int)
              else (decimalDigitsToNat xd : Int))
    else none

/-- Exact magnitude of the decimal literal intPart.fracPart·10^exp:
with digits M = intPart ++ fracPart and scale K = exp − |fracPart|,
the value M·10^K is an integer when K ≥ 0 or when 10^(−K) divides M,
and otherwise truncates to M / 10^(−K). -/
def decimalMagnitude (ip fp : List Char) (exp : Int) : JsMagnitude :=
  let M := decimalDigitsToNat (ip ++ fp)
  let K := exp - (fp.length : Int)
  if 0 ≤ K then JsMagnitude.intVal (M * 10 ^ K.toNat)
  else
    let d := 10 ^ (-K).toNat
    if M % d = 0 then JsMagnitude.intVal (M / d)
    else JsMagnitude.nonIntVal (M / d)

/-- Unsigned decimal literal of the JS StrDecimalLiteral grammar:
digits, digits `.` digits?, or `.` digits, each with an optional
exponent part, and nothing else. -/
def parseUnsignedDecimal (cs : List Char) : Option JsMagnitude :=
  let ip := cs.takeWhile Char.isDigit
  let rest1 := cs.dropWhile Char.isDigit
  match rest1 with
  | '.' :: rest2 =>
    let fp := rest2.takeWhile Char.isDigit
    let rest3 := rest2.dropWhile Char.isDigit
    if ip.isEmpty ∧ fp.isEmpty then none
    else (parseExponentPart rest3).map (fun e => decimalMagnitude ip fp e)
  | _ =>
    if ip.isEmpty then none
    else (parseExponentPart rest1).map (fun e => decimalMagnitude ip [] e)

/-- Value of one digit in a radix literal (hex letters included). -/
def hexDigitValue (c : Char) : Nat :=
  if c.isDigit then c.toNat - 48
  else if 'a' ≤ c ∧ c ≤ 'f' then c.toNat - 87
  else if 'A' ≤ c ∧ c ≤ 'F' then c.toNat - 55
  else 0

/-- Whether a character is a digit of the given base (2, 8 or 16). -/
def isRadixDigit (b : Nat) (c : Char) : Bool :=
  (c.isDigit ∧ c.toNat - 48 < b) ∨
    (b = 16 ∧ (('a' ≤ c ∧ c ≤ 'f') ∨ ('A' ≤ c ∧ c ≤ 'F')))

/-- Value of a digit list in the given base. -/
def digitsToNatBase (b : Nat) (cs : List Char) : Nat :=
  cs.foldl (fun a c => a * b + hexDigitValue c) 0

/-- The unsigned radix literals of the JS grammar: `0x`/`0X`, `0o`/`0O`
or `0b`/`0B` followed by a nonempty string of digits of that base (a
sign is not allowed on these). -/
def jsRadixLiteral (cs : List Char) : Option Nat :=
  match cs with
  | '0' :: c :: rest =>
    if c = 'x' ∨ c = 'X' then
      if ¬ rest.isEmpty ∧ rest.all (isRadixDigit 16) then
        some (digitsToNatBase 16 rest)
      else none
    else if c = 'o' ∨ c = 'O' then
      if ¬ rest.isEmpty ∧ rest.all (isRadixDigit 8) then
        some (digitsToNatBase 8 rest)
      else none
    else if c = 'b' ∨ c = 'B' then
      if ¬ rest.isEmpty ∧ rest.all (isRadixDigit 2) then
        some (digitsToNatBase 2 rest)
      else none
    else none
  | _ => none

/-- The JS `Number(string)` coercion used by `getNextTriggerDate`,
over the full StringNumericLiteral grammar: the whitespace-trimmed
empty string is 0; unsigned hex/octal/binary radix literals, signed
`Infinity` and signed decimal literals (digits with optional fraction
and exponent) coerce to numbers; every other string is NaN.  Literal
values are evaluated exactly rather than rounded to binary doubles
(see the module conventions). -/
def jsNumber (s : String) : JsNum :=
  let cs := ((s.toList.dropWhile isJsSpace).reverse.dropWhile isJsSpace).reverse
  match cs with
  | [] => JsNum.num 0
  | _ =>
    match jsRadixLiteral cs with
    | some v => JsNum.num (v : Int)
    | none =>
      let signedBody : Bool × List Char :=
        match cs with
        | '-' :: r => (true, r)
        | '+' :: r => (false, r)
        | r => (false, r)
      let neg := signedBody.1
      let body := signedBody.2
      if body = "Infinity".toList then
        if neg then JsNum.negInf else JsNum.inf
      else
        match parseUnsignedDecimal body with
        | some (JsMagnitude.intVal m) =>
          JsNum.num (if neg then -(m : Int) else (m : Int))
        | some (JsMagnitude.nonIntVal t) =>
          JsNum.numNonInt (if neg then -(t : Int) else (t : Int))
        | none => JsNum.nan

/-- JS `Number.isNaN` applied to an array element that may be absent
(`none` models `undefined`, which is not NaN). -/
def jsIsNaN : Option JsNum → Bool
  | some JsNum.nan => true
  | _ => false

/-- The `ToIntegerOrInfinity` conversion `setHours` applies to a
finite number: an integer is itself, a finite non-integer truncates
toward zero; the infinities (which make the date invalid) have no
finite conversion. -/
def jsFiniteTrunc : JsNum → Option Int
  | JsNum.num n => some n
  | JsNum.numNonInt t => some t
  | _ => none

/-- Milliseconds in a minute (`MS_IN_MINUTE`). -/
def msInMinute : Int := 60 * 1000

/-- Milliseconds in an hour (`MS_IN_HOUR`). -/
def msInHour : Int := 60 * msInMinute

/-- Milliseconds in a day (`MS_IN_DAY`). -/
def msInDay : Int := 24 * msInHour

/-- Local calendar day number of a timestamp (floor division by a
day). -/
def jsDayNumber (t : Int) : Int := t.fdiv msInDay

/-- Local midnight of the day containing a timestamp: the effect of
JS `setHours(0, 0, 0, 0)` on the linear local clock. -/
def jsMidnight (t : Int) : Int := jsDayNumber t * msInDay

/-- A quote as returned by `getRandomQuote` (fields used by the
scheduler). -/
structure Quote where
  quote : String
  authorName : String
  description : Option String
deriving DecidableEq, Repr

/-- Environment of one scheduler invocation: the notification
permission outcome, the quote the fetch yields (`none` when no quote
is available), and the current clock reading. -/
structure SchedEnv where
  hasPermission : Bool
  quote : Option Quote
  now : Int
deriving DecidableEq, Repr

/-- One pending OS notification as armed by
`scheduleNotificationAsync` (`triggerDate = none` models an Invalid
Date trigger). -/
structure PendingNotification where
  id : Nat
  triggerDate : Option Int
  payloadType : String
  body : String
  description : Option String
deriving DecidableEq, Repr

/-- Scheduler state: the module globals `scheduledNotificationId` and
`scheduledNotificationTime`, the AsyncStorage entry
`daily-quote-notification-id` (`storedNotificationId`), the listener
and background-task registrations, the OS pending-notification queue,
and the fresh-id counter modelling OS id generation. -/
structure SchedState where
  scheduledNotificationId : Option Nat
  scheduledNotificationTime : Option String
  storedNotificationId : Option Nat
  listenerAttached : Bool
  backgroundTaskRegistered : Bool
  pending : List PendingNotification
  nextId : Nat
deriving DecidableEq, Repr

/-- Fresh process state: no globals set, nothing stored, nothing
pending. -/
def initialSchedState : SchedState :=
  { scheduledNotificationId := none
    scheduledNotificationTime := none
    storedNotificationId := none
    listenerAttached := false
    backgroundTaskRegistered := false
    pending := []
    nextId := 0 }

/-- Embedding of `getNextTriggerDate` (part_001 lines 53-69): split the
time string on a colon, coerce the first two components with `Number`,
warn and return null (`none`) when either is NaN; otherwise set the
trigger to today at hour:minute (with `setHours` truncating finite
non-integers toward zero) and roll forward one day when the trigger is
not strictly in the future.  `some none` models the Invalid Date
produced when a component is `undefined` (fewer than two components —
`Number.isNaN(undefined)` is false, so the guard passes and `setHours`
receives NaN) or an infinity. -/
def getNextTriggerDate (time : String) (now : Int) : Option (Option Int) :=
  let parts := (jsSplit time ':').map jsNumber
  if jsIsNaN parts[0]? || jsIsNaN parts[1]? then
    none
  else
    match parts[0]?, parts[1]? with
    | some h, some m =>
      match jsFiniteTrunc h, jsFiniteTrunc m with
      | some hour, some minute =>
        let trigger := jsMidnight now + hour * msInHour + minute * msInMinute
        some (some (if trigger ≤ now then trigger + msInDay else trigger))
      | _, _ => some none
    | _, _ => some none

/-- The id `cancelScheduledNotification` operates on: the in-memory id
when set, falling back to the stored id (the source's
`scheduledNotificationId ?? (await getStoredNotificationId())`). -/
def effectiveId (st : SchedState) : Option Nat :=
  match st.scheduledNotificationId with
  | some i => some i
  | none => st.storedNotificationId

/-- Embedding of `cancelScheduledNotification` (part_001 lines 71-90):
resolve the id (memory first, then storage); when none exists return
unchanged; otherwise cancel the OS notification with that id and, in
the `finally` block, clear both the in-memory and the stored id. -/
def cancelScheduledNotification (st : SchedState) : SchedState :=
  match effectiveId st with
  | none => st
  | some nid =>
    { st with
      pending := st.pending.filter (fun p => p.id ≠ nid)
      scheduledNotificationId := none
      storedNotificationId := none }

/-- Embedding of `scheduleSingleNotification` (part_001 lines 92-146):
return early without permission or on a null trigger date; cancel the
previously scheduled notification; return after the cancel when no
quote is available; otherwise arm a one-shot notification tagged
`daily-quote` at the trigger date and record its id in memory and in
storage. -/
def scheduleSingleNotification (env : SchedEnv) (time : String)
    (st : SchedState) : SchedState :=
  if !env.hasPermission then st
  else
    match getNextTriggerDate time env.now with
    | none => st
    | some nextTriggerDate =>
      let st1 := cancelScheduledNotification st
      match env.quote with
      | none => st1
      | some quote =>
        let body := quote.quote ++ "\n " ++ quote.authorName
        { st1 with
          pending := st1.pending ++
            [{ id := st1.nextId
               triggerDate := nextTriggerDate
               payloadType := "daily-quote"
               body := body
               description := quote.description }]
          scheduledNotificationId := some st1.nextId
          storedNotificationId := some st1.nextId
          nextId := st1.nextId + 1 }

/-- Embedding of the delivery handler installed by
`ensureNotificationListener` (part_001 lines 148-170): when the
delivered payload type is not the daily-quote tag or no time is cached
in memory, do nothing; otherwise re-arm through
`scheduleSingleNotification` with the cached time. -/
def onNotificationReceived (env : SchedEnv) (payloadType : Option String)
    (st : SchedState) : SchedState :=
  if payloadType ≠ some "daily-quote" then st
  else
    match st.scheduledNotificationTime with
    | none => st
    | some t => scheduleSingleNotification env t st

/-- Embedding of `scheduleDailyQuoteNotification` (part_001 lines
230-235): cache the time in memory, attach the delivery listener,
register the background task, then schedule. -/
def scheduleDailyQuoteNotification (env : SchedEnv) (time : String)
    (st : SchedState) : SchedState :=
  scheduleSingleNotification env time
    { st with
      scheduledNotificationTime := some time
      listenerAttached := true
      backgroundTaskRegistered := true }

/-- Embedding of `cancelDailyQuoteNotification` (part_001 lines
237-241): cancel the scheduled notification, clear the cached time,
unregister the background task. -/
def cancelDailyQuoteNotification (st : SchedState) : SchedState :=
  let st1 := cancelScheduledNotification st
  { st1 with
    scheduledNotificationTime := none
    backgroundTaskRegistered := false }

/-- Scheduler state invariant: every OS-pending notification is the
one the scheduler tracks (its id is the effective id), and at most one
notification is pending. -/
def wellFormedSched (st : SchedState) : Prop :=
  (∀ p ∈ st.pending, effectiveId st = some p.id) ∧ st.pending.length ≤ 1

instance (st : SchedState) : Decidable (wellFormedSched st) := by
  unfold wellFormedSched; infer_instance

/-- Tag distinguishing weekly from holiday blackout
(`RestrictionReason`). -/
inductive RestrictionReason where
  | shabbat : RestrictionReason
  | yomtov : RestrictionReason
deriving DecidableEq, Repr

/-- A calendar feed item (`HebcalItem`), with its `date` field already
parsed to epoch milliseconds (`none` models a missing or unparseable
date; `parseDate` and the `isValidDate` filter treat both the same
way). -/
structure HebcalItem where
  title : Option String := none
  hebrew : Option String := none
  category : Option String := none
  yomtov : Bool := false
  date : Option Int := none
deriving DecidableEq, Repr

/-- A blackout window (`RestrictionInfo`): half-open interval
from `start` (inclusive) to `endTime` (exclusive; the source field is
named `end`, a reserved word here). -/
structure RestrictionInfo where
  reason : RestrictionReason
  title : String
  subtitle : Option String
  start : Int
  endTime : Int
deriving DecidableEq, Repr

/-- Result of `fetchCurrentRestriction` (`RestrictionResult`). -/
structure RestrictionResult where
  restriction : Option RestrictionInfo
  nextCheckAfterMs : Int
deriving DecidableEq, Repr

/-- Stable insertion of an element into a list already sorted by an
integer key: the element goes before the first strictly greater key,
so elements with equal keys keep their original relative order. -/
def stableInsertByKey (key : α → Int) (x : α) : List α → List α
  | [] => [x]
  | y :: ys =>
    if key y < key x then y :: stableInsertByKey key x ys
    else x :: y :: ys

/-- Stable sort by an integer key, modelling the JS
`sort((a, b) => keyA - keyB)` comparator calls in the source. -/
def sortByKey (key : α → Int) (l : List α) : List α :=
  l.foldr (stableInsertByKey key) []

/-- Embedding of `collectDateKeysInRange` (part_002 lines 100-112):
the local calendar day keys visited by a cursor starting at the
midnight of `startT` and stepping one day while it does not pass
`endT`.  Keys are day numbers rather than formatted date strings. -/
def collectDateKeysInRange (startT endT : Int) : List Int :=
  let firstDay := jsDayNumber startT
  let count := ((endT - firstDay * msInDay).fdiv msInDay + 1).toNat
  (List.range count).map (fun k => firstDay + (k : Int))

/-- Embedding of `determineReason` (part_002 lines 114-142): when some
feed item is a holiday whose date key falls within the window's day
range, report a `yomtov` restriction titled by that item, otherwise
default to `shabbat` (with an English subtitle on iOS only).  Returns
(reason, title, subtitle). -/
def determineReason (ios : Bool) (items : List HebcalItem)
    (windowStart windowEnd : Int) :
    RestrictionReason × String × Option String :=
  let rangeKeys := collectDateKeysInRange windowStart windowEnd
  let relevantHoliday := items.find? (fun item =>
    item.yomtov &&
      match item.date with
      | some d => rangeKeys.contains (jsDayNumber d)
      | none => false)
  match relevantHoliday with
  | some holiday =>
    (RestrictionReason.yomtov,
      holiday.hebrew.getD (holiday.title.getD "חג"),
      holiday.title)
  | none =>
    (RestrictionReason.shabbat, "שבת", if ios then some "Shabbat" else none)

/-- The `sortedCandles` list of `buildRestrictionWindows`: items of
category `candles` with a valid parsed date, sorted chronologically,
paired with their timestamp. -/
def candleMarkers (items : List HebcalItem) : List (HebcalItem × Int) :=
  sortByKey (fun p => p.2)
    ((items.filter (fun i => i.category = some "candles")).filterMap
      (fun i => i.date.map (fun d => (i, d))))

/-- The `sortedHavdalah` list of `buildRestrictionWindows`: items of
category `havdalah` with a valid parsed date, sorted chronologically,
paired with their timestamp. -/
def havdalahMarkers (items : List HebcalItem) : List (HebcalItem × Int) :=
  sortByKey (fun p => p.2)
    ((items.filter (fun i => i.category = some "havdalah")).filterMap
      (fun i => i.date.map (fun d => (i, d))))

/-- The two-pointer pairing loop of `buildRestrictionWindows`
(part_002 lines 165-195): for each candle marker, advance the havdalah
cursor past every havdalah not strictly after the candle (the cursor
is kept across candles, modelled by recursing on the remaining
havdalah list); stop when the havdalahs are exhausted, otherwise emit
the window from the candle to that havdalah. -/
def pairWindows (ios : Bool) (items : List HebcalItem) :
    List (HebcalItem × Int) → List (HebcalItem × Int) → List RestrictionInfo
  | [], _ => []
  | candle :: rest, havdalahs =>
    match havdalahs.dropWhile (fun hav => hav.2 ≤ candle.2) with
    | [] => []
    | havdalah :: hs =>
      let r := determineReason ios items candle.2 havdalah.2
      { reason := r.1
        title := r.2.1
        subtitle := r.2.2
        start := candle.2
        endTime := havdalah.2 } ::
        pairWindows ios items rest (havdalah :: hs)

/-- Embedding of `buildRestrictionWindows` (part_002 lines 144-198):
collect and sort the candle and havdalah markers, return no windows
when either list is empty, otherwise run the two-pointer pairing. -/
def buildRestrictionWindows (ios : Bool) (items : List HebcalItem) :
    List RestrictionInfo :=
  let sortedCandles := candleMarkers items
  let sortedHavdalah := havdalahMarkers items
  if sortedCandles.isEmpty || sortedHavdalah.isEmpty then []
  else pairWindows ios items sortedCandles sortedHavdalah

/-- Embedding of `findNextCheckDelay` (part_002 lines 200-217): take
the earliest window start strictly after `now`; when there is none —
or, through the JS falsy test `!upcomingStart`, when that start is the
zero timestamp — refresh in an hour; when it is at most 15 minutes
away, check again in 5 minutes; otherwise after the time to that
start, capped at 2 hours. -/
def findNextCheckDelay (now : Int) (windows : List RestrictionInfo) : Int :=
  let upcomingStart :=
    (sortByKey (fun t => t)
      ((windows.map (fun w => w.start)).filter (fun t => now < t)))[0]?
  match upcomingStart with
  | none => 60 * msInMinute
  | some u =>
    if u = 0 then 60 * msInMinute
    else
      let delta := u - now
      if delta ≤ 15 * msInMinute then 5 * msInMinute
      else min delta (2 * msInHour)

/-- The computation that follows the hard-coded early return of
`fetchCurrentRestriction` (part_002 lines 235-260, unreachable in the
shipped source): build the windows from the feed items; with no
windows (including the `{}` feed-failure response, i.e. an empty item
list) report no restriction and a 1-hour recheck; inside a window
report it with a recheck of the time to its end clamped between 1 and
10 minutes; otherwise no restriction and `findNextCheckDelay`. -/
def fetchCurrentRestrictionComputed (ios : Bool) (items : List HebcalItem)
    (referenceDate : Int) : RestrictionResult :=
  let windows := buildRestrictionWindows ios items
  if windows.isEmpty then
    { restriction := none, nextCheckAfterMs := 60 * msInMinute }
  else
    let now := referenceDate
    match windows.find? (fun w => decide (w.start ≤ now) && decide (now < w.endTime)) with
    | some activeWindow =>
      { restriction := some activeWindow
        nextCheckAfterMs :=
          max (min (activeWindow.endTime - now) (10 * msInMinute)) msInMinute }
    | none =>
      { restriction := none
        nextCheckAfterMs := findNextCheckDelay referenceDate windows }

/-- Embedding of `fetchCurrentRestriction` (part_002 lines 219-261) as
shipped: the hard-coded early return reports a mock Sabbath window
anchored at the call instant `now` (the source's `new Date()` and
`Date.now()`, read as one instant), six hours long, with a fixed
3,600,000 ms recheck; the feed items, the `referenceDate` argument and
the platform are never consulted.  The unreachable remainder of the
body is embedded separately as `fetchCurrentRestrictionComputed`. -/
def fetchCurrentRestriction (ios : Bool) (items : List HebcalItem)
    (referenceDate : Int) (now : Int) : RestrictionResult :=
  { restriction := some
      { reason := RestrictionReason.shabbat
        title := "שבת"
        subtitle := some "Shabbat"
        start := now
        endTime := now + 6 * msInHour }
    nextCheckAfterMs := 3600000 }

/-- Following the claim's words (not the source): a time string is in
two-integer HH:MM form when it splits on the colon into exactly two
components, each a nonempty string of decimal digits. -/
def specParseableAsTwoIntegers (time : String) : Bool :=
  match jsSplit time ':' with
  | [a, b] =>
    (!a.toList.isEmpty && a.toList.all Char.isDigit) &&
      (!b.toList.isEmpty && b.toList.all Char.isDigit)
  | _ => false

/-- Concrete quote used by witnesses. -/
def q0 : Quote := { quote := "A", authorName := "B", description := none }

/-- Concrete happy-path environment used by witnesses: permission
granted, a quote available, the clock at the epoch. -/
def env0 : SchedEnv := { hasPermission := true, quote := some q0, now := 0 }

/-- Concrete feed fixture: one candle-lighting marker at 100 ms and
one havdalah marker at 200 ms, so [100, 200) is a computed window. -/
def itemsOneWindow : List HebcalItem :=
  [{ category := some "candles", date := some 100 },
   { category := some "havdalah", date := some 200 }]

/-- Concrete feed fixture with two disjoint windows: candle markers at
100 ms and 300 ms, havdalah markers at 200 ms and 400 ms. -/
def itemsTwoWindows : List HebcalItem :=
  [{ category := some "candles", date := some 100 },
   { category := some "havdalah", date := some 200 },
   { category := some "candles", date := some 300 },
   { category := some "havdalah", date := some 400 }]

/-- Concrete scheduler state with one armed notification whose id 0 is
recorded in memory and in storage. -/
def stWithArmed : SchedState :=
  { scheduledNotificationId := some 0
    scheduledNotificationTime := some "09:00"
    storedNotificationId := some 0
    listenerAttached := true
    backgroundTaskRegistered := true
    pending := [{ id := 0
                  triggerDate := some 999
                  payloadType := "daily-quote"
                  body := "b"
                  description := none }]
    nextId := 1 }

/-- Concrete environment whose quote fetch yields nothing. -/
def envNoQuote : SchedEnv := { hasPermission := true, quote := none, now := 0 }

/-! Helper lemmas. -/

/-- Evaluation of `getNextTriggerDate` when the first two
colon-separated components coerce to integers: the trigger is today at
hour:minute, rolled forward one day when not strictly in the
future. -/
theorem getNextTriggerDate_parsed (time : String) (now hr mn : Int)
    (h0 : ((jsSplit time ':').map jsNumber)[0]? = some (JsNum.num hr))
    (h1 : ((jsSplit time ':').map jsNumber)[1]? = some (JsNum.num mn)) :
    getNextTriggerDate time now =
      some (some
        (if jsMidnight now + hr * msInHour + mn * msInMinute ≤ now
         then jsMidnight now + hr * msInHour + mn * msInMinute + msInDay
         else jsMidnight now + hr * msInHour + mn * msInMinute)) := by
  unfold getNextTriggerDate
  simp only [h0, h1, jsIsNaN, jsFiniteTrunc, Bool.or_self,
    Bool.false_eq_true, if_false]

/-- A NaN in either of the first two components makes
`getNextTriggerDate` return null. -/
theorem getNextTriggerDate_nan (time : String) (now : Int)
    (h : jsIsNaN ((jsSplit time ':').map jsNumber)[0]? = true ∨
         jsIsNaN ((jsSplit time ':').map jsNumber)[1]? = true) :
    getNextTriggerDate time now = none := by
  unfold getNextTriggerDate
  rcases h with h | h <;>
    (simp only [List.getElem?_map] at h; simp [h])

/-- Cancelling always leaves both the in-memory and the stored
notification id cleared. -/
theorem cancel_ids (st : SchedState) :
    (cancelScheduledNotification st).scheduledNotificationId = none ∧
    (cancelScheduledNotification st).storedNotificationId = none := by
  unfold cancelScheduledNotification effectiveId
  cases hm : st.scheduledNotificationId with
  | some i => simp
  | none =>
    cases hs : st.storedNotificationId with
    | some i => simp
    | none => simp [hm, hs]

/-- Cancelling touches neither the cached time, the registration
flags, nor the fresh-id counter. -/
theorem cancel_preserves (st : SchedState) :
    (cancelScheduledNotification st).scheduledNotificationTime =
      st.scheduledNotificationTime ∧
    (cancelScheduledNotification st).listenerAttached = st.listenerAttached ∧
    (cancelScheduledNotification st).backgroundTaskRegistered =
      st.backgroundTaskRegistered ∧
    (cancelScheduledNotification st).nextId = st.nextId := by
  unfold cancelScheduledNotification
  cases h : effectiveId st <;> simp

/-- On a well-formed state, cancelling empties the OS pending
queue. -/
theorem cancel_pending_of_wf (st : SchedState) (h : wellFormedSched st) :
    (cancelScheduledNotification st).pending = [] := by
  obtain ⟨hall, hlen⟩ := h
  unfold cancelScheduledNotification
  cases heff : effectiveId st with
  | none =>
    cases hp : st.pending with
    | nil => simp [hp]
    | cons a l =>
      have := hall a (by rw [hp]; exact List.mem_cons_self a l)
      rw [heff] at this
      exact absurd this (by simp)
  | some nid =>
    simp only []
    rw [List.filter_eq_nil_iff]
    intro p hp
    have := hall p hp
    rw [heff] at this
    simp only [Option.some.injEq] at this
    simp [this]

/-- Updating the cached time and the registration flags changes
neither the ids nor the pending queue, so it preserves
well-formedness. -/
theorem wf_flags (st : SchedState) (t : Option String) (a b : Bool)
    (hwf : wellFormedSched st) :
    wellFormedSched
      { st with
        scheduledNotificationTime := t
        listenerAttached := a
        backgroundTaskRegistered := b } := by
  obtain ⟨h1, h2⟩ := hwf
  exact ⟨fun p hp => h1 p hp, h2⟩

/-- Shape of a successful `scheduleSingleNotification` run on a
well-formed state: the old notification is gone, exactly one new
notification tagged `daily-quote` is pending at the computed trigger,
and its fresh id is recorded in memory and in storage. -/
theorem scheduleSingle_success (env : SchedEnv) (time : String)
    (st : SchedState) (q : Quote) (d : Option Int)
    (hperm : env.hasPermission = true) (hq : env.quote = some q)
    (hd : getNextTriggerDate time env.now = some d)
    (hwf : wellFormedSched st) :
    scheduleSingleNotification env time st =
      { scheduledNotificationId := some st.nextId
        scheduledNotificationTime := st.scheduledNotificationTime
        storedNotificationId := some st.nextId
        listenerAttached := st.listenerAttached
        backgroundTaskRegistered := st.backgroundTaskRegistered
        pending := [{ id := st.nextId
                      triggerDate := d
                      payloadType := "daily-quote"
                      body := q.quote ++ "\n " ++ q.authorName
                      description := q.description }]
        nextId := st.nextId + 1 } := by
  have hpend := cancel_pending_of_wf st hwf
  have hpres := cancel_preserves st
  unfold scheduleSingleNotification
  rw [hperm, hd, hq]
  simp only [Bool.not_true, Bool.false_eq_true, if_false]
  rw [hpend, hpres.1, hpres.2.1, hpres.2.2.1, hpres.2.2.2]
  simp

/-- Every `scheduleSingleNotification` run preserves the scheduler
invariant. -/
theorem wf_scheduleSingle (env : SchedEnv) (time : String) (st : SchedState)
    (hwf : wellFormedSched st) :
    wellFormedSched (scheduleSingleNotification env time st) := by
  cases hperm : env.hasPermission with
  | false => simpa [scheduleSingleNotification, hperm] using hwf
  | true =>
    cases hd : getNextTriggerDate time env.now with
    | none => simpa [scheduleSingleNotification, hperm, hd] using hwf
    | some d =>
      cases hq : env.quote with
      | none =>
        have hpend := cancel_pending_of_wf st hwf
        simp only [scheduleSingleNotification, hperm, hd, hq,
          Bool.not_true, Bool.false_eq_true, if_false]
        exact ⟨fun p hp => absurd hp (by simp [hpend]), by simp [hpend]⟩
      | some q =>
        rw [scheduleSingle_success env time st q d hperm hq hd hwf]
        constructor
        · intro p hp
          simp only [List.mem_singleton] at hp
          subst hp
          rfl
        · simp

/-- Every `scheduleDailyQuoteNotification` run preserves the
scheduler invariant. -/
theorem wf_scheduleDaily (env : SchedEnv) (time : String) (st : SchedState)
    (hwf : wellFormedSched st) :
    wellFormedSched (scheduleDailyQuoteNotification env time st) := by
  unfold scheduleDailyQuoteNotification
  exact wf_scheduleSingle env time _ (wf_flags st _ _ _ hwf)

/-- The cached-time and registration-flag updates performed by
`scheduleDailyQuoteNotification` do not change what cancelling does to
the pending queue. -/
theorem cancel_flags_pending (st : SchedState) (t : Option String)
    (a b : Bool) :
    (cancelScheduledNotification
      { st with
        scheduledNotificationTime := t
        listenerAttached := a
        backgroundTaskRegistered := b }).pending =
      (cancelScheduledNotification st).pending := by
  unfold cancelScheduledNotification effectiveId
  cases hm : st.scheduledNotificationId with
  | some i => simp
  | none => cases hs : st.storedNotificationId <;> simp

/-- The first two colon-separated components of the literal "09:00"
coerce to the integers 9 and 0. -/
theorem jsParts_0900 :
    (jsSplit "09:00" ':').map jsNumber = [JsNum.num 9, JsNum.num 0] := rfl

/-- Agreement of `jsNumber` with the JS `Number` coercion on
representative literals of every branch of the grammar: decimal and
exponent and radix literals and Infinity coerce to numbers (only
non-numeric strings are NaN), the empty string coerces to 0, and a
sign is not allowed on a radix literal. -/
theorem jsNumber_examples :
    jsNumber "9.5" = JsNum.numNonInt 9 ∧
    jsNumber "1e2" = JsNum.num 100 ∧
    jsNumber "0x10" = JsNum.num 16 ∧
    jsNumber ".5" = JsNum.numNonInt 0 ∧
    jsNumber "Infinity" = JsNum.inf ∧
    jsNumber "-9.5" = JsNum.numNonInt (-9) ∧
    jsNumber "1.5e1" = JsNum.num 15 ∧
    jsNumber "0o7" = JsNum.num 7 ∧
    jsNumber "0b11" = JsNum.num 3 ∧
    jsNumber "" = JsNum.num 0 ∧
    jsNumber "-0x10" = JsNum.nan ∧
    jsNumber "1e" = JsNum.nan ∧
    jsNumber "1.2.3" = JsNum.nan ∧
    jsNumber "abc" = JsNum.nan := by decide

/-- The delay reported by `findNextCheckDelay` is never below one
minute. -/
theorem findNextCheckDelay_ge (now : Int) (ws : List RestrictionInfo) :
    60000 ≤ findNextCheckDelay now ws := by
  simp only [findNextCheckDelay]
  split
  · norm_num [msInMinute]
  · split
    · norm_num [msInMinute]
    · split
      · norm_num [msInMinute]
      · rename_i u hu hdelta
        simp only [msInMinute, msInHour] at hdelta ⊢
        norm_num at hdelta ⊢
        omega

/-! Claim theorems. -/

/-- C1: for every referenceDate, `fetchCurrentRestriction` returns,
via the hard-coded early return and without consulting the calendar
feed or the computed windows (the result is invariant in the feed
items, the platform and the reference date), a non-null restriction
with reason shabbat whose end is exactly 6 hours after its start,
together with nextCheckAfterMs = 3,600,000 ms. -/
theorem claim1_hardcoded_mock (ios ios2 : Bool)
    (items items2 : List HebcalItem)
    (referenceDate referenceDate2 now : Int) :
    fetchCurrentRestriction ios items referenceDate now =
      fetchCurrentRestriction ios2 items2 referenceDate2 now ∧
    ∃ r, (fetchCurrentRestriction ios items referenceDate now).restriction =
        some r ∧
      r.reason = RestrictionReason.shabbat ∧
      r.endTime = r.start + 6 * msInHour ∧
      (fetchCurrentRestriction ios items referenceDate now).nextCheckAfterMs =
        3600000 :=
  ⟨rfl, ⟨_, rfl, rfl, rfl, rfl⟩⟩

/-- C2: for every time string whose first two colon-separated
components coerce to integers hour and minute, the trigger is today at
hour:minute when that instant is strictly after the current time, and
otherwise exactly one calendar day later at the same hour:minute. -/
theorem claim2_next_trigger (time : String) (now hr mn : Int)
    (h0 : ((jsSplit time ':').map jsNumber)[0]? = some (JsNum.num hr))
    (h1 : ((jsSplit time ':').map jsNumber)[1]? = some (JsNum.num mn)) :
    getNextTriggerDate time now =
      some (some
        (if now < jsMidnight now + hr * msInHour + mn * msInMinute
         then jsMidnight now + hr * msInHour + mn * msInMinute
         else jsMidnight now + hr * msInHour + mn * msInMinute + msInDay)) := by
  rw [getNextTriggerDate_parsed time now hr mn h0 h1]
  by_cases hle : jsMidnight now + hr * msInHour + mn * msInMinute ≤ now
  · rw [if_pos hle, if_neg (by omega)]
  · rw [if_neg hle, if_pos (by omega)]

/-- Witness for C2 at the concrete inputs "09:30" and a clock reading
of 40,000,000 ms (11:06:40 on day 0): 09:30 has passed, so the trigger
is 09:30 of day 1 (120,600,000 ms). -/
theorem claim2_next_trigger_witness :
    getNextTriggerDate "09:30" 40000000 = some (some 120600000) := by
  have h := claim2_next_trigger "09:30" 40000000 9 30 rfl rfl
  rw [h]
  decide

/-- C5 counterexample: with an armed notification (id 0 persisted, one
pending) and a quote fetch that yields nothing, scheduleDaily is not a
no-op — the persisted id is cleared and the pending notification is
cancelled. -/
theorem claim5_counterexample :
    stWithArmed.storedNotificationId = some 0 ∧
    stWithArmed.pending.length = 1 ∧
    (scheduleDailyQuoteNotification envNoQuote "09:00"
        stWithArmed).storedNotificationId = none ∧
    (scheduleDailyQuoteNotification envNoQuote "09:00"
        stWithArmed).pending = [] :=
  ⟨rfl, rfl, rfl, rfl⟩

/-- C5 as amended: if the quote fetch yields no quote (with permission
granted and a parseable time), scheduleDaily arms no notification for
this cycle, but it first cancels the previously scheduled
notification, so both ids end cleared and the pending queue is exactly
what cancelling leaves; the fresh-id counter is untouched and the
cached time is updated. -/
theorem claim5_amended_no_quote (env : SchedEnv) (time : String)
    (st : SchedState) (d : Option Int)
    (hq : env.quote = none) (hperm : env.hasPermission = true)
    (hd : getNextTriggerDate time env.now = some d) :
    (scheduleDailyQuoteNotification env time st).scheduledNotificationId =
      none ∧
    (scheduleDailyQuoteNotification env time st).storedNotificationId =
      none ∧
    (scheduleDailyQuoteNotification env time st).pending =
      (cancelScheduledNotification st).pending ∧
    (scheduleDailyQuoteNotification env time st).nextId = st.nextId ∧
    (scheduleDailyQuoteNotification env time st).scheduledNotificationTime =
      some time := by
  unfold scheduleDailyQuoteNotification scheduleSingleNotification
  rw [hperm, hd, hq]
  simp only [Bool.not_true, Bool.false_eq_true, if_false]
  refine ⟨(cancel_ids _).1, (cancel_ids _).2,
    cancel_flags_pending st _ _ _, ?_, ?_⟩
  · exact (cancel_preserves _).2.2.2
  · exact (cancel_preserves _).1

/-- Witness for C5's amended theorem at a concrete armed state: the
no-quote cycle leaves both ids cleared, the queue emptied by the
cancel, the counter at 1 and the time cached. -/
theorem claim5_amended_no_quote_witness :
    (scheduleDailyQuoteNotification envNoQuote "09:00"
        stWithArmed).scheduledNotificationId = none ∧
    (scheduleDailyQuoteNotification envNoQuote "09:00"
        stWithArmed).storedNotificationId = none ∧
    (scheduleDailyQuoteNotification envNoQuote "09:00" stWithArmed).pending =
      (cancelScheduledNotification stWithArmed).pending ∧
    (scheduleDailyQuoteNotification envNoQuote "09:00" stWithArmed).nextId =
      stWithArmed.nextId ∧
    (scheduleDailyQuoteNotification envNoQuote "09:00"
        stWithArmed).scheduledNotificationTime = some "09:00" :=
  claim5_amended_no_quote envNoQuote "09:00" stWithArmed
    (some 32400000) rfl rfl rfl

/-- C8 counterexample: the input ":" is not parseable as two integers
in HH:MM form, yet scheduleDaily does not no-op on it — JS Number
coerces the empty components to 0, and a notification is armed for
00:00 of the next day (86,400,000 ms on the day-0 clock). -/
theorem claim8_counterexample :
    specParseableAsTwoIntegers ":" = false ∧
    initialSchedState.pending = [] ∧
    (scheduleDailyQuoteNotification env0 ":" initialSchedState).pending.map
      (fun p => p.triggerDate) = [some 86400000] :=
  ⟨rfl, rfl, rfl⟩

/-- C8 as amended: scheduleDaily's parse step fails — logging a
warning and leaving the pending queue and both notification ids
untouched — precisely when the JS Number coercion of one of the first
two colon-separated components is NaN; whenever both components coerce
to non-NaN numbers (including the empty string, which coerces to 0,
and non-integer numerics, which setHours truncates) the run proceeds
past parsing to a non-null trigger date. -/
theorem claim8_amended_nan_noop (env : SchedEnv) (time : String)
    (st : SchedState) :
    (jsIsNaN ((jsSplit time ':').map jsNumber)[0]? = true ∨
     jsIsNaN ((jsSplit time ':').map jsNumber)[1]? = true →
      (scheduleDailyQuoteNotification env time st).pending = st.pending ∧
      (scheduleDailyQuoteNotification env time st).storedNotificationId =
        st.storedNotificationId ∧
      (scheduleDailyQuoteNotification env time st).scheduledNotificationId =
        st.scheduledNotificationId) ∧
    (jsIsNaN ((jsSplit time ':').map jsNumber)[0]? = false →
     jsIsNaN ((jsSplit time ':').map jsNumber)[1]? = false →
      ∃ d, getNextTriggerDate time env.now = some d) := by
  constructor
  · intro hnan
    have hd := getNextTriggerDate_nan time env.now hnan
    unfold scheduleDailyQuoteNotification scheduleSingleNotification
    rw [hd]
    cases env.hasPermission <;> simp
  · intro h0 h1
    unfold getNextTriggerDate
    simp only [h0, h1, Bool.or_self, Bool.false_eq_true, if_false]
    cases hp0 : ((jsSplit time ':').map jsNumber)[0]? with
    | none => exact ⟨none, rfl⟩
    | some v0 =>
      cases hp1 : ((jsSplit time ':').map jsNumber)[1]? with
      | none => exact ⟨none, rfl⟩
      | some v1 => cases v0 <;> cases v1 <;> exact ⟨_, rfl⟩

/-- Witness for C8's amended theorem: at "ab:cd", whose components are
NaN under JS Number coercion, scheduleDaily leaves the queue and both
ids of the armed state untouched; at "9.5:30", whose components are
the non-NaN numbers 9.5 and 30, parsing succeeds and the run proceeds
to a trigger date. -/
theorem claim8_amended_nan_noop_witness :
    ((scheduleDailyQuoteNotification env0 "ab:cd" stWithArmed).pending =
        stWithArmed.pending ∧
      (scheduleDailyQuoteNotification env0 "ab:cd"
          stWithArmed).storedNotificationId =
        stWithArmed.storedNotificationId ∧
      (scheduleDailyQuoteNotification env0 "ab:cd"
          stWithArmed).scheduledNotificationId =
        stWithArmed.scheduledNotificationId) ∧
    ∃ d, getNextTriggerDate "9.5:30" env0.now = some d :=
  ⟨(claim8_amended_nan_noop env0 "ab:cd" stWithArmed).1 (Or.inl rfl),
   (claim8_amended_nan_noop env0 "9.5:30" stWithArmed).2 rfl rfl⟩

/-- C3: two consecutive scheduleDaily calls with the time "09:00"
(the second with permission granted and a quote available) collapse to
a single pending notification — afterwards exactly one notification id
is persisted, the same id is cached in memory, and it is the id of the
only pending notification. -/
theorem claim3_idempotence (env1 env2 : SchedEnv) (q : Quote)
    (st : SchedState) (hwf : wellFormedSched st)
    (hperm : env2.hasPermission = true) (hq : env2.quote = some q) :
    ∃ nid,
      (scheduleDailyQuoteNotification env2 "09:00"
        (scheduleDailyQuoteNotification env1 "09:00"
          st)).storedNotificationId = some nid ∧
      (scheduleDailyQuoteNotification env2 "09:00"
        (scheduleDailyQuoteNotification env1 "09:00"
          st)).scheduledNotificationId = some nid ∧
      (scheduleDailyQuoteNotification env2 "09:00"
        (scheduleDailyQuoteNotification env1 "09:00" st)).pending.map
          (fun p => p.id) = [nid] := by
  have hwf1 : wellFormedSched (scheduleDailyQuoteNotification env1 "09:00" st) :=
    wf_scheduleDaily env1 "09:00" st hwf
  have h0 : ((jsSplit "09:00" ':').map jsNumber)[0]? = some (JsNum.num 9) := by
    rw [jsParts_0900]; rfl
  have h1 : ((jsSplit "09:00" ':').map jsNumber)[1]? = some (JsNum.num 0) := by
    rw [jsParts_0900]; rfl
  have hd := getNextTriggerDate_parsed "09:00" env2.now 9 0 h0 h1
  set st1 := scheduleDailyQuoteNotification env1 "09:00" st with hst1
  simp only [scheduleDailyQuoteNotification]
  rw [scheduleSingle_success env2 "09:00" _ q _ hperm hq hd
    (wf_flags st1 _ _ _ hwf1)]
  exact ⟨_, rfl, rfl, by simp⟩

/-- Witness for C3: two scheduleDaily runs on the fresh state in the
happy-path environment persist exactly id 1, cache id 1, and leave it
as the only pending notification. -/
theorem claim3_idempotence_witness :
    ∃ nid,
      (scheduleDailyQuoteNotification env0 "09:00"
        (scheduleDailyQuoteNotification env0 "09:00"
          initialSchedState)).storedNotificationId = some nid ∧
      (scheduleDailyQuoteNotification env0 "09:00"
        (scheduleDailyQuoteNotification env0 "09:00"
          initialSchedState)).scheduledNotificationId = some nid ∧
      (scheduleDailyQuoteNotification env0 "09:00"
        (scheduleDailyQuoteNotification env0 "09:00"
          initialSchedState)).pending.map (fun p => p.id) = [nid] :=
  claim3_idempotence env0 env0 q0 initialSchedState (by decide) rfl rfl

/-- C6: for every scheduleDaily run from a well-formed state, a
subsequent cancel leaves no persisted notification id, no cached
in-memory id, no pending notification, and no cached time; and
cancelling when no notification id exists in memory or in storage
returns the state untouched. -/
theorem claim6_cancel_clears (env : SchedEnv) (time : String)
    (st : SchedState) (hwf : wellFormedSched st) :
    ((cancelDailyQuoteNotification
        (scheduleDailyQuoteNotification env time st)).storedNotificationId =
      none ∧
     (cancelDailyQuoteNotification
        (scheduleDailyQuoteNotification env time st)).scheduledNotificationId =
      none ∧
     (cancelDailyQuoteNotification
        (scheduleDailyQuoteNotification env time st)).pending = [] ∧
     (cancelDailyQuoteNotification
        (scheduleDailyQuoteNotification env time
          st)).scheduledNotificationTime = none) ∧
    ∀ st3 : SchedState, st3.scheduledNotificationId = none →
      st3.storedNotificationId = none →
      cancelScheduledNotification st3 = st3 := by
  constructor
  · have hwf1 := wf_scheduleDaily env time st hwf
    unfold cancelDailyQuoteNotification
    exact ⟨(cancel_ids _).2, (cancel_ids _).1,
      cancel_pending_of_wf _ hwf1, rfl⟩
  · intro st3 hm hs
    simp [cancelScheduledNotification, effectiveId, hm, hs]

/-- Witness for C6 on the fresh state in the happy-path environment,
together with the nonexistent-id case on the fresh state itself. -/
theorem claim6_cancel_clears_witness :
    ((cancelDailyQuoteNotification
        (scheduleDailyQuoteNotification env0 "09:00"
          initialSchedState)).storedNotificationId = none ∧
     (cancelDailyQuoteNotification
        (scheduleDailyQuoteNotification env0 "09:00"
          initialSchedState)).scheduledNotificationId = none ∧
     (cancelDailyQuoteNotification
        (scheduleDailyQuoteNotification env0 "09:00"
          initialSchedState)).pending = [] ∧
     (cancelDailyQuoteNotification
        (scheduleDailyQuoteNotification env0 "09:00"
          initialSchedState)).scheduledNotificationTime = none) ∧
    cancelScheduledNotification initialSchedState = initialSchedState :=
  ⟨(claim6_cancel_clears env0 "09:00" initialSchedState (by decide)).1,
   (claim6_cancel_clears env0 "09:00" initialSchedState (by decide)).2
     initialSchedState rfl rfl⟩

/-- C7: when a delivered notification carries the daily-quote payload
tag and a time is cached in memory (with permission granted, a quote
available, and today's occurrence of that time already passed), the
delivery handler re-arms exactly one daily-quote notification for the
following day's occurrence of the same HH:MM; a delivery without the
tag, or a delivery when no time is cached, changes nothing. -/
theorem claim7_rearm_on_delivery (env : SchedEnv) (st : SchedState)
    (t : String) (q : Quote) (hr mn : Int)
    (hwf : wellFormedSched st)
    (ht : st.scheduledNotificationTime = some t)
    (h0 : ((jsSplit t ':').map jsNumber)[0]? = some (JsNum.num hr))
    (h1 : ((jsSplit t ':').map jsNumber)[1]? = some (JsNum.num mn))
    (hpast : jsMidnight env.now + hr * msInHour + mn * msInMinute ≤ env.now)
    (hperm : env.hasPermission = true) (hq : env.quote = some q) :
    ((onNotificationReceived env (some "daily-quote") st).pending.map
        (fun p => (p.payloadType, p.triggerDate)) =
      [("daily-quote",
        some (jsMidnight env.now + hr * msInHour + mn * msInMinute +
          msInDay))]) ∧
    (∀ pt : Option String, pt ≠ some "daily-quote" →
      onNotificationReceived env pt st = st) ∧
    (∀ st2 : SchedState, st2.scheduledNotificationTime = none →
      onNotificationReceived env (some "daily-quote") st2 = st2) := by
  refine ⟨?_, ?_, ?_⟩
  · have hd : getNextTriggerDate t env.now =
        some (some (jsMidnight env.now + hr * msInHour + mn * msInMinute +
          msInDay)) := by
      rw [getNextTriggerDate_parsed t env.now hr mn h0 h1, if_pos hpast]
    unfold onNotificationReceived
    rw [ht]
    simp only [ne_eq, not_true_eq_false, if_false]
    rw [scheduleSingle_success env t st q _ hperm hq hd hwf]
    simp
  · intro pt hpt
    simp [onNotificationReceived, hpt]
  · intro st2 h2
    simp [onNotificationReceived, h2]

/-- Witness for C7: delivery at exactly 09:00 of day 0 with "09:00"
cached re-arms one daily-quote notification for 09:00 of day 1
(118,800,000 ms). -/
theorem claim7_rearm_on_delivery_witness :
    ((onNotificationReceived
        { hasPermission := true, quote := some q0, now := 32400000 }
        (some "daily-quote")
        { initialSchedState with
          scheduledNotificationTime := some "09:00" }).pending.map
      (fun p => (p.payloadType, p.triggerDate)) =
      [("daily-quote", some 118800000)]) := by
  have h := claim7_rearm_on_delivery
    { hasPermission := true, quote := some q0, now := 32400000 }
    { initialSchedState with scheduledNotificationTime := some "09:00" }
    "09:00" q0 9 0 (by decide) rfl (by rw [jsParts_0900]; rfl)
    (by rw [jsParts_0900]; rfl) (by decide) rfl rfl
  have h1 := h.1
  rw [h1]
  decide

/-- C4: for feed items whose candle-lighting markers sit at D1 and D2
and havdalah markers at E1 and E2 with D1 < E1 < D2 < E2,
buildRestrictionWindows produces exactly the two non-overlapping
half-open windows from D1 to E1 and from D2 to E2, pairing each start
marker with the next end marker strictly after it. -/
theorem claim4_window_pairing (ios : Bool) (items : List HebcalItem)
    (c1 c2 hv1 hv2 : HebcalItem) (D1 E1 D2 E2 : Int)
    (hc : items.filter (fun i => i.category = some "candles") = [c1, c2])
    (hh : items.filter (fun i => i.category = some "havdalah") = [hv1, hv2])
    (hd1 : c1.date = some D1) (hd2 : c2.date = some D2)
    (he1 : hv1.date = some E1) (he2 : hv2.date = some E2)
    (hDE1 : D1 < E1) (hED2 : E1 < D2) (hDE2 : D2 < E2) :
    (buildRestrictionWindows ios items).map (fun w => (w.start, w.endTime)) =
      [(D1, E1), (D2, E2)] ∧ E1 ≤ D2 := by
  refine ⟨?_, le_of_lt hED2⟩
  have hcm : candleMarkers items = [(c1, D1), (c2, D2)] := by
    unfold candleMarkers
    rw [hc]
    simp [List.filterMap_cons, hd1, hd2, sortByKey, stableInsertByKey,
      (show ¬ D2 < D1 by omega)]
  have hhm : havdalahMarkers items = [(hv1, E1), (hv2, E2)] := by
    unfold havdalahMarkers
    rw [hh]
    simp [List.filterMap_cons, he1, he2, sortByKey, stableInsertByKey,
      (show ¬ E2 < E1 by omega)]
  unfold buildRestrictionWindows
  rw [hcm, hhm]
  simp [pairWindows, List.dropWhile_cons,
    (show ¬ E1 ≤ D1 by omega), (show E1 ≤ D2 by omega),
    (show ¬ E2 ≤ D2 by omega)]

/-- Witness for C4 on the concrete fixture with candle markers at 100
and 300 and havdalah markers at 200 and 400: exactly the windows
[100, 200) and [300, 400). -/
theorem claim4_window_pairing_witness :
    (buildRestrictionWindows false itemsTwoWindows).map
        (fun w => (w.start, w.endTime)) =
      [((100 : Int), (200 : Int)), (300, 400)] ∧ (200 : Int) ≤ 300 :=
  claim4_window_pairing false itemsTwoWindows
    { category := some "candles", date := some 100 }
    { category := some "candles", date := some 300 }
    { category := some "havdalah", date := some 200 }
    { category := some "havdalah", date := some 400 }
    100 200 300 400 (by decide) (by decide) rfl rfl rfl rfl
    (by decide) (by decide) (by decide)

/-- C9: at the reference instant 150, strictly inside the computed
window [100, 200) of the one-window fixture, the shipped
fetchCurrentRestriction still returns the hard-coded mock window
anchored at the call clock (here 1,000,000) with a one-hour recheck,
not the computed window — the computation that the claim describes
(unreachable behind the early return) would return the window
[100, 200) with the recheck clamped to one minute. -/
theorem claim9_mock_shadows_active_window :
    fetchCurrentRestriction false itemsOneWindow 150 1000000 =
      { restriction := some
          { reason := RestrictionReason.shabbat
            title := "שבת"
            subtitle := some "Shabbat"
            start := 1000000
            endTime := 1000000 + 6 * msInHour }
        nextCheckAfterMs := 3600000 } ∧
    fetchCurrentRestrictionComputed false itemsOneWindow 150 =
      { restriction := some
          { reason := RestrictionReason.shabbat
            title := "שבת"
            subtitle := none
            start := 100
            endTime := 200 }
        nextCheckAfterMs := 60000 } ∧
    (fetchCurrentRestriction false itemsOneWindow 150 1000000).restriction ≠
      (fetchCurrentRestrictionComputed false itemsOneWindow 150).restriction :=
  ⟨rfl, by decide, by decide⟩

/-- C10: on every return path of the shipped fetchCurrentRestriction
(the hard-coded early return) and of the computation behind it (active
window, no windows computed — including the feed-failure empty item
list — and upcoming window near or far), the returned nextCheckAfterMs
is at least one minute (60,000 ms). -/
theorem claim10_delay_at_least_minute (ios : Bool)
    (items : List HebcalItem) (referenceDate now : Int) :
    60000 ≤ (fetchCurrentRestriction ios items referenceDate
      now).nextCheckAfterMs ∧
    60000 ≤ (fetchCurrentRestrictionComputed ios items
      referenceDate).nextCheckAfterMs := by
  constructor
  · norm_num [fetchCurrentRestriction]
  · simp only [fetchCurrentRestrictionComputed]
    split
    · norm_num [msInMinute]
    · split
      · have h60 : msInMinute = 60000 := by norm_num [msInMinute]
        simp [h60]
      · exact findNextCheckDelay_ge _ _

end Emuna
